import Mathlib

/-!
Verification of the Reddit book-review pipeline in
`book_review_reddit_app.py`: the thread locator `get_reddit_urls`
(lines 78-131) and the comment extractor `extract_comments`
(lines 133-205), shallowly embedded in Lean.

Python strings are modelled as `List Char` (a Python `str` is a
sequence of code points; `len`, slicing and the `in` substring test
all operate on code points). Dictionary payloads are modelled as
structures carrying exactly the fields the code reads, with `Option`
for fields accessed through `dict.get`. The network layer is an input
to `extract_comments`: a `FetchOutcome` value saying whether the HTTP
request raised, the JSON parse raised, or a parsed document arrived.
UI calls (`st.error`, `st.write`, debug logging) have no effect on the
returned values and are not modelled.
-/

set_option maxRecDepth 40000

/-- PyStr models a Python `str` as its list of code points. -/
abbrev PyStr := List Char

/-- pstr converts a Lean string literal to the `PyStr` model. -/
def pstr (s : String) : PyStr := s.data

/-- subListOf pat s models the Python substring test `pat in s`:
true iff `pat` occurs contiguously inside `s`. -/
def subListOf (pat : PyStr) : PyStr → Bool
  | [] => pat.isEmpty
  | c :: rest => pat.isPrefixOf (c :: rest) || subListOf pat rest

/-- takeUntilChar c s models Python `s.split(c)[0]` for a one-character
separator: the longest prefix of `s` before the first occurrence of `c`
(all of `s` when `c` does not occur). -/
def takeUntilChar (c : Char) : PyStr → PyStr
  | [] => []
  | x :: xs => if x = c then [] else x :: takeUntilChar c xs

/-- OrganicResult models one entry of the provider's `organic_results`
list as read by the code: `result.get("link")` (may be absent) and
`result.get("title", "")` (absent modelled as `none`, defaulted to ""). -/
structure OrganicResult where
  link : Option PyStr
  title : Option PyStr
deriving Repr, DecidableEq

/-- SerpPayload models the provider response dictionary as read by
`get_reddit_urls`: whether an `"error"` key is present (line 98) and the
`results.get("organic_results", [])` list (line 103). -/
structure SerpPayload where
  hasError : Bool
  organic_results : List OrganicResult
deriving Repr, DecidableEq

/-- ThreadDescriptor models the `{"url": ..., "title": ...}` dictionary
appended at lines 118-121. -/
structure ThreadDescriptor where
  url : PyStr
  title : PyStr
deriving Repr, DecidableEq

/-- clean_url models line 117: `link.split("?")[0].split("#")[0]` —
strip everything from the first `?`, then from the first `#`. -/
def clean_url (link : PyStr) : PyStr :=
  takeUntilChar '#' (takeUntilChar '?' link)

/-- accepts models the filter at line 116:
`link and "reddit.com/r/" in link and "/comments/" in link`,
where a missing or empty link is falsy. -/
def accepts (r : OrganicResult) : Bool :=
  match r.link with
  | none => false
  | some l =>
    !l.isEmpty && subListOf (pstr "reddit.com/r/") l &&
      subListOf (pstr "/comments/") l

/-- toDescriptor models the dictionary built at lines 118-121 for an
accepted result: the canonicalized link and the (defaulted) title. -/
def toDescriptor (r : OrganicResult) : ThreadDescriptor :=
  { url := clean_url (r.link.getD []), title := r.title.getD [] }

/-- get_reddit_urls embeds the source function of the same name
(lines 78-131) applied to the provider payload it receives: return `[]`
when the payload has an `"error"` key (lines 98-100), otherwise collect,
in order, a descriptor for every organic result passing the filter at
line 116 (lines 102-125). The `max_results` parameter of the source only
shapes the outbound request, never the filtering, so it is absorbed into
the quantification over payloads. The exception handler at line 127 also
returns `[]`; no modelled operation raises. -/
def get_reddit_urls (results : SerpPayload) : List ThreadDescriptor :=
  if results.hasError then []
  else
    results.organic_results.filterMap fun r =>
      if accepts r then some (toDescriptor r) else none

/-- CommentEntry models one element of `data[1]["data"]["children"]` as
read by the loop at lines 166-184: whether a `"data"` key is present,
and the `body`, `author` and `score` fields of that inner dictionary
(each `Option`al, matching `dict.get` with defaults "", "Unknown", 0). -/
structure CommentEntry where
  hasData : Bool
  body : Option PyStr
  author : Option PyStr
  score : Option Int
deriving Repr, DecidableEq

/-- CommentRecord models the dictionary appended at lines 177-181. -/
structure CommentRecord where
  author : PyStr
  body : PyStr
  score : Int
deriving Repr, DecidableEq

/-- PyItem models one element of the heterogeneous Python list returned
by `extract_comments`: either a comment dictionary (success entries) or
a bare diagnostic string (the error returns at lines 155, 158, 195, 200,
205). -/
inductive PyItem where
  | comment (r : CommentRecord)
  | message (s : PyStr)
deriving Repr, DecidableEq

/-- RedditData models the parsed thread JSON as classified by the shape
checks at lines 154-158: not a two-element-or-longer list; list whose
second element lacks `"data"`/`"children"`; or a well-shaped document
with its `children` collection. -/
inductive RedditData where
  | notListOrShort
  | missingChildren
  | threadData (children : List CommentEntry)
deriving Repr, DecidableEq

/-- FetchOutcome models the outcome of the network interaction at lines
144-147: the request raised (`requests.exceptions.RequestException`,
which covers timeouts, connection failures and `raise_for_status` HTTP
errors), the JSON decode raised, or a parsed document was produced. The
carried string models `str(e)` for the raised exception. -/
inductive FetchOutcome where
  | requestError (msg : PyStr)
  | jsonError (msg : PyStr)
  | ok (data : RedditData)
deriving Repr, DecidableEq

/-- isValidBody models the filter at line 176:
`body and body not in ["[deleted]", "[removed]"] and len(body) > 30`. -/
def isValidBody (body : PyStr) : Bool :=
  !body.isEmpty && body != pstr "[deleted]" && body != pstr "[removed]" &&
    decide (30 < body.length)

/-- truncateBody models line 179:
`body[:800] + "..." if len(body) > 800 else body`. -/
def truncateBody (body : PyStr) : PyStr :=
  if 800 < body.length then body.take 800 ++ pstr "..." else body

/-- mkRecord models the dictionary built at lines 177-181 from one
entry's inner `data` dictionary: defaulted author (line 172, default
`"Unknown"`), truncated body, defaulted score (line 173, default 0). -/
def mkRecord (comment_data : CommentEntry) : CommentRecord :=
  { author := comment_data.author.getD (pstr "Unknown")
  , body := truncateBody (comment_data.body.getD [])
  , score := comment_data.score.getD 0 }

/-- extractLoop embeds the loop at lines 166-184: skip entries without a
`"data"` key (the `continue` also skips the break check), append a
record when the body passes `isValidBody`, and break as soon as
`len(comments) >= max_comments` (checked after every non-skipped entry,
appended or not). `max_comments` is a Python int, modelled as `Int`. -/
def extractLoop (maxC : Int) : List CommentEntry → List CommentRecord →
    List CommentRecord
  | [], comments => comments
  | c :: rest, comments =>
    if c.hasData = false then extractLoop maxC rest comments
    else
      let comments' :=
        if isValidBody (c.body.getD []) then comments ++ [mkRecord c]
        else comments
      if maxC ≤ (comments'.length : Int) then comments'
      else extractLoop maxC rest comments'

/-- extract_comments embeds the source function of the same name
(lines 133-205) applied to the outcome of its fetch: each `except`
branch and each shape check returns a one-element list holding a
diagnostic string, and the success path returns the collected comment
dictionaries (lines 160-189). -/
def extract_comments (url : PyStr) (fetched : FetchOutcome)
    (max_comments : Int) : List PyItem :=
  match fetched with
  | .requestError e =>
    [.message (pstr "Network error accessing " ++ url ++ pstr ": " ++ e)]
  | .jsonError e => [.message (pstr "JSON parsing error: " ++ e)]
  | .ok .notListOrShort =>
    [.message (pstr "Invalid response format - not a list or too short")]
  | .ok .missingChildren =>
    [.message (pstr "Invalid thread structure - missing data or children")]
  | .ok (.threadData children) =>
    (extractLoop max_comments children []).map PyItem.comment

/-- successRecords projects the comment dictionaries out of a returned
Python list, discarding diagnostic strings. -/
def successRecords (items : List PyItem) : List CommentRecord :=
  items.filterMap fun i =>
    match i with
    | .comment r => some r
    | .message _ => none

/-! Concrete payloads used to instantiate and to refute claims. -/

/-- dup_result is an organic result with a canonical thread link. -/
def dup_result : OrganicResult :=
  { link := some (pstr "https://www.reddit.com/r/books/comments/abc/great_read/")
  , title := some (pstr "Great read") }

/-- dup_payload is a provider payload returning the same organic result
twice, as a provider may. -/
def dup_payload : SerpPayload :=
  { hasError := false, organic_results := [dup_result, dup_result] }

/-- distinct_payload is a provider payload whose two accepted links
canonicalize to two different URLs. -/
def distinct_payload : SerpPayload :=
  { hasError := false
  , organic_results :=
      [ { link := some (pstr "https://www.reddit.com/r/books/comments/aaa")
        , title := some (pstr "A") }
      , { link := some (pstr "https://www.reddit.com/r/books/comments/bbb")
        , title := none } ] }

/-- query_marker_payload is a provider payload whose single link passes
the substring filter only because `/comments/` occurs inside its query
string. -/
def query_marker_payload : SerpPayload :=
  { hasError := false
  , organic_results :=
      [ { link := some (pstr "https://www.reddit.com/r/books?x=1/comments/abc")
        , title := some (pstr "t") } ] }

/-- clean_demo_payload is a provider payload whose single link carries a
query string and a fragment after a genuine thread path. -/
def clean_demo_payload : SerpPayload :=
  { hasError := false
  , organic_results :=
      [ { link := some
            (pstr "https://www.reddit.com/r/books/comments/abc?utm=1#top")
        , title := some (pstr "demo") } ] }

/-- mixed_payload has three organic results of which the middle one (a
community homepage without a thread path) is rejected. -/
def mixed_payload : SerpPayload :=
  { hasError := false
  , organic_results :=
      [ { link := some (pstr "https://www.reddit.com/r/books/comments/aaa")
        , title := some (pstr "first") }
      , { link := some (pstr "https://www.reddit.com/r/books/")
        , title := some (pstr "homepage") }
      , { link := some (pstr "https://www.reddit.com/r/fantasy/comments/bbb")
        , title := some (pstr "second") } ] }

/-- e801 is a comment entry whose body has 801 characters, one more than
the truncation threshold. -/
def e801 : CommentEntry :=
  { hasData := true
  , body := some (List.replicate 801 'a')
  , author := some (pstr "alice")
  , score := some 5 }

/-- entry_no_author is a comment entry with a 40-character body and no
author or score fields. -/
def entry_no_author : CommentEntry :=
  { hasData := true
  , body := some (List.replicate 40 'b')
  , author := none
  , score := none }

/-! Helper lemmas. -/

/-- A filterMap whose function is a guarded map equals map after filter. -/
theorem filterMap_if_eq_map_filter {α β : Type _} (p : α → Bool) (f : α → β)
    (l : List α) :
    (l.filterMap fun x => if p x then some (f x) else none) =
      (l.filter p).map f := by
  induction l with
  | nil => rfl
  | cons x xs ih =>
    by_cases h : p x <;>
      simp [List.filterMap_cons, List.filter_cons, h, ih]

/-- The separator character never survives `takeUntilChar`. -/
theorem not_mem_takeUntilChar (c : Char) (xs : PyStr) :
    c ∉ takeUntilChar c xs := by
  induction xs with
  | nil => simp [takeUntilChar]
  | cons x xs ih =>
    rw [takeUntilChar]
    by_cases h : x = c
    · simp [h]
    · simp [h, ih, Ne.symm h]

/-- Characters of `takeUntilChar c xs` are characters of `xs`. -/
theorem mem_of_mem_takeUntilChar {a c : Char} {xs : PyStr}
    (h : a ∈ takeUntilChar c xs) : a ∈ xs := by
  induction xs with
  | nil => simp [takeUntilChar] at h
  | cons x xs ih =>
    rw [takeUntilChar] at h
    by_cases hx : x = c
    · simp [hx] at h
    · rw [if_neg hx] at h
      rcases List.mem_cons.mp h with h | h
      · exact h ▸ List.mem_cons_self x xs
      · exact List.mem_cons_of_mem _ (ih h)

/-- Every record produced by the extraction loop either was in the
accumulator already, or is `mkRecord` of an entry of the input whose
(defaulted) body passed the validity filter. -/
theorem extractLoop_mem {maxC : Int} {entries : List CommentEntry}
    {comments : List CommentRecord} {r : CommentRecord}
    (h : r ∈ extractLoop maxC entries comments) :
    r ∈ comments ∨
      ∃ e ∈ entries, isValidBody (e.body.getD []) = true ∧ r = mkRecord e := by
  induction entries generalizing comments with
  | nil => exact Or.inl (by simpa [extractLoop] using h)
  | cons c rest ih =>
    rw [extractLoop] at h
    by_cases hd : c.hasData = false
    · rw [if_pos hd] at h
      rcases ih h with h | ⟨e, he, hv, hr⟩
      · exact Or.inl h
      · exact Or.inr ⟨e, List.mem_cons_of_mem _ he, hv, hr⟩
    · rw [if_neg hd] at h
      by_cases hv : isValidBody (c.body.getD []) = true
      · simp only [hv, if_true] at h
        by_cases hb : maxC ≤ ((comments ++ [mkRecord c]).length : Int)
        · rw [if_pos hb] at h
          rcases List.mem_append.mp h with h | h
          · exact Or.inl h
          · exact Or.inr ⟨c, List.mem_cons_self c rest, hv,
              (List.mem_singleton.mp h)⟩
        · rw [if_neg hb] at h
          rcases ih h with h | ⟨e, he, hv', hr⟩
          · rcases List.mem_append.mp h with h | h
            · exact Or.inl h
            · exact Or.inr ⟨c, List.mem_cons_self c rest, hv,
                (List.mem_singleton.mp h)⟩
          · exact Or.inr ⟨e, List.mem_cons_of_mem _ he, hv', hr⟩
      · simp only [Bool.not_eq_true] at hv
        simp only [hv, Bool.false_eq_true, if_false] at h
        by_cases hb : maxC ≤ (comments.length : Int)
        · rw [if_pos hb] at h
          exact Or.inl h
        · rw [if_neg hb] at h
          rcases ih h with h | ⟨e, he, hv', hr⟩
          · exact Or.inl h
          · exact Or.inr ⟨e, List.mem_cons_of_mem _ he, hv', hr⟩

/-- When the accumulator is strictly below the bound, the extraction
loop never grows the list beyond the bound. -/
theorem extractLoop_length_le {maxC : Int} {entries : List CommentEntry}
    {comments : List CommentRecord}
    (h : (comments.length : Int) < maxC) :
    ((extractLoop maxC entries comments).length : Int) ≤ maxC := by
  induction entries generalizing comments with
  | nil => simpa [extractLoop] using le_of_lt h
  | cons c rest ih =>
    rw [extractLoop]
    by_cases hd : c.hasData = false
    · rw [if_pos hd]
      exact ih h
    · rw [if_neg hd]
      by_cases hv : isValidBody (c.body.getD []) = true
      · simp only [hv, if_true]
        by_cases hb : maxC ≤ ((comments ++ [mkRecord c]).length : Int)
        · rw [if_pos hb]
          simp only [List.length_append, List.length_singleton] at *
          push_cast at *
          omega
        · rw [if_neg hb]
          exact ih (by omega)
      · simp only [Bool.not_eq_true] at hv
        simp only [hv, Bool.false_eq_true, if_false]
        by_cases hb : maxC ≤ (comments.length : Int)
        · rw [if_pos hb]
          omega
        · rw [if_neg hb]
          exact ih (by omega)

/-- A truncated body never exceeds 803 characters (800 plus the
three-character ellipsis marker). -/
theorem truncateBody_length_le (b : PyStr) : (truncateBody b).length ≤ 803 := by
  rw [truncateBody]
  by_cases h : 800 < b.length
  · rw [if_pos h]
    have hm : (pstr "...").length = 3 := rfl
    simp only [List.length_append, List.length_take, hm]
    omega
  · rw [if_neg h]
    omega

/-- Truncation keeps a body above the 30-character minimum. -/
theorem truncateBody_length_gt {b : PyStr} (h : 30 < b.length) :
    30 < (truncateBody b).length := by
  rw [truncateBody]
  by_cases h8 : 800 < b.length
  · rw [if_pos h8]
    have hm : (pstr "...").length = 3 := rfl
    simp only [List.length_append, List.length_take, hm]
    omega
  · rw [if_neg h8]
    exact h

/-- Unfolding of a passed validity filter into its three conditions (the
non-emptiness conjunct is implied by the length bound and dropped). -/
theorem isValidBody_spec {b : PyStr} (h : isValidBody b = true) :
    b ≠ pstr "[deleted]" ∧ b ≠ pstr "[removed]" ∧ 30 < b.length := by
  rw [isValidBody] at h
  simp only [Bool.and_eq_true, bne_iff_ne, decide_eq_true_eq] at h
  exact ⟨h.1.1.2, h.1.2, h.2⟩

/-- Records projected from a success return are exactly the collected
records. -/
theorem successRecords_map_comment (l : List CommentRecord) :
    successRecords (l.map PyItem.comment) = l := by
  induction l with
  | nil => rfl
  | cons r rest ih => simp [successRecords, List.filterMap_cons] at ih ⊢; exact ih

/-! Claim theorems. -/

/-- C1 counterexample: when the provider returns the same organic result
twice, `get_reddit_urls` returns two descriptors with the same canonical
URL, so the returned URLs are not pairwise distinct. -/
theorem get_reddit_urls_duplicate_urls :
    ¬ ((get_reddit_urls dup_payload).map ThreadDescriptor.url).Nodup := by
  decide

/-- C1 (amended): `get_reddit_urls` does not deduplicate; its URLs are
pairwise distinct exactly when the canonicalized accepted links are,
since the output is those links in provider order. In particular, when
the accepted links canonicalize to pairwise-distinct URLs, the returned
URLs are pairwise distinct. -/
theorem get_reddit_urls_nodup_of_distinct_canonical (p : SerpPayload)
    (h : ((p.organic_results.filter accepts).map
        fun r => clean_url (r.link.getD [])).Nodup) :
    ((get_reddit_urls p).map ThreadDescriptor.url).Nodup := by
  by_cases hp : p.hasError = true
  · simp [get_reddit_urls, hp]
  · simp only [Bool.not_eq_true] at hp
    rw [get_reddit_urls, if_neg (by simp [hp]),
      filterMap_if_eq_map_filter accepts toDescriptor, List.map_map]
    simpa [Function.comp_def, toDescriptor] using h

/-- C1 witness: on a payload whose two accepted links canonicalize to
different URLs, the returned URLs are pairwise distinct. -/
theorem get_reddit_urls_nodup_witness :
    ((get_reddit_urls distinct_payload).map ThreadDescriptor.url).Nodup :=
  get_reddit_urls_nodup_of_distinct_canonical distinct_payload (by decide)

/-- C4 (confirmed): when the provider payload carries an error field,
`get_reddit_urls` returns the empty list (the function is total, so in
the model nothing is raised). -/
theorem get_reddit_urls_error_empty (p : SerpPayload)
    (h : p.hasError = true) : get_reddit_urls p = [] := by
  simp [get_reddit_urls, h]

/-- C4 witness: a concrete error payload yields the empty list. -/
theorem get_reddit_urls_error_empty_witness :
    get_reddit_urls { hasError := true, organic_results := [dup_result] } = [] :=
  get_reddit_urls_error_empty _ rfl

/-- C5 counterexample: a link whose thread-path marker sits inside the
query string passes the filter, but after stripping at the first `?` the
returned canonical URL no longer contains `/comments/` — so not every
returned URL contains both markers. -/
theorem get_reddit_urls_marker_lost :
    get_reddit_urls query_marker_payload =
      [{ url := pstr "https://www.reddit.com/r/books", title := pstr "t" }] ∧
    subListOf (pstr "/comments/") (pstr "https://www.reddit.com/r/books")
      = false := by
  decide

/-- C5 (amended): every URL returned by `get_reddit_urls` contains no
`?` and no `#`, and is the canonicalization of an accepted link that
contained both the `reddit.com/r/` and `/comments/` markers; the
markers are guaranteed on the raw accepted link, not on the canonical
URL, because the filter runs before query/fragment stripping. -/
theorem get_reddit_urls_no_query_fragment (p : SerpPayload)
    (d : ThreadDescriptor) (h : d ∈ get_reddit_urls p) :
    '?' ∉ d.url ∧ '#' ∉ d.url ∧
      ∃ l, subListOf (pstr "reddit.com/r/") l = true ∧
        subListOf (pstr "/comments/") l = true ∧ d.url = clean_url l := by
  by_cases hp : p.hasError = true
  · simp [get_reddit_urls, hp] at h
  · simp only [Bool.not_eq_true] at hp
    rw [get_reddit_urls, if_neg (by simp [hp])] at h
    rcases List.mem_filterMap.mp h with ⟨r, _, hr⟩
    by_cases ha : accepts r = true
    · rw [if_pos ha] at hr
      obtain rfl : toDescriptor r = d := Option.some_injective _ hr
      cases hl : r.link with
      | none => rw [accepts, hl] at ha; exact absurd ha (by simp)
      | some l =>
        rw [accepts, hl] at ha
        simp only [Bool.and_eq_true] at ha
        refine ⟨?_, ?_, l, ha.1.2, ha.2, by simp [toDescriptor, hl]⟩
        · intro hq
          have hq' : '?' ∈ takeUntilChar '?' l := by
            simpa [toDescriptor, hl, clean_url] using
              mem_of_mem_takeUntilChar hq
          exact not_mem_takeUntilChar '?' l hq'
        · intro hq
          simp only [toDescriptor, hl, clean_url, Option.getD_some] at hq
          exact not_mem_takeUntilChar '#' (takeUntilChar '?' l) hq
    · rw [if_neg ha] at hr
      exact absurd hr (by simp)

/-- C5 witness: a link with query string and fragment after a genuine
thread path yields a descriptor whose URL carries neither. -/
theorem get_reddit_urls_no_query_fragment_witness :
    '?' ∉ (ThreadDescriptor.mk
        (pstr "https://www.reddit.com/r/books/comments/abc")
        (pstr "demo")).url ∧
    '#' ∉ (ThreadDescriptor.mk
        (pstr "https://www.reddit.com/r/books/comments/abc")
        (pstr "demo")).url ∧
      ∃ l, subListOf (pstr "reddit.com/r/") l = true ∧
        subListOf (pstr "/comments/") l = true ∧
        (ThreadDescriptor.mk
          (pstr "https://www.reddit.com/r/books/comments/abc")
          (pstr "demo")).url = clean_url l :=
  get_reddit_urls_no_query_fragment clean_demo_payload _ (by decide)

/-- C10 (confirmed): on an error-free payload, `get_reddit_urls` is
exactly the accepted organic results, in the provider's native order,
each mapped to its descriptor — the provider order is preserved. -/
theorem get_reddit_urls_preserves_order (p : SerpPayload)
    (h : p.hasError = false) :
    get_reddit_urls p = (p.organic_results.filter accepts).map toDescriptor := by
  rw [get_reddit_urls, if_neg (by simp [h]),
    filterMap_if_eq_map_filter accepts toDescriptor]

/-- C10 witness: on a payload with an interleaved rejected result, the
output is the two accepted results' descriptors in provider order. -/
theorem get_reddit_urls_preserves_order_witness :
    get_reddit_urls mixed_payload =
      (mixed_payload.organic_results.filter accepts).map toDescriptor :=
  get_reddit_urls_preserves_order mixed_payload rfl

/-- Every comment record in a success return comes from an entry of the
thread's children whose defaulted body passed the validity filter. -/
theorem mem_extract_comments_threadData {url : PyStr}
    {children : List CommentEntry} {maxC : Int} {r : CommentRecord}
    (h : PyItem.comment r ∈
      extract_comments url (.ok (.threadData children)) maxC) :
    ∃ e ∈ children, isValidBody (e.body.getD []) = true ∧ r = mkRecord e := by
  simp only [extract_comments, List.mem_map, PyItem.comment.injEq] at h
  obtain ⟨r', hr', rfl⟩ := h
  rcases extractLoop_mem hr' with h | h
  · simp at h
  · exact h

/-- C2 counterexample: an 801-character body yields a record whose body
is the first 800 characters followed by `...`, of length 803 — the
returned body exceeds the 800-character maximum. -/
theorem extract_comments_body_exceeds_max :
    extract_comments (pstr "u") (.ok (.threadData [e801])) 10 =
      [PyItem.comment
        { author := pstr "alice"
        , body := List.replicate 800 'a' ++ pstr "..."
        , score := 5 }] ∧
    ¬ (List.replicate 800 'a' ++ pstr "...").length ≤ 800 := by
  constructor
  · decide
  · decide

/-- C2 (amended): every returned body has length at most 803, the
800-character maximum plus the three-character ellipsis marker; bodies
longer than 800 characters are cut to 800 and the marker appended, so
the bound 803, not 800, is tight. -/
theorem extract_comments_body_le_803 (url : PyStr) (f : FetchOutcome)
    (maxC : Int) (r : CommentRecord)
    (h : PyItem.comment r ∈ extract_comments url f maxC) :
    r.body.length ≤ 803 := by
  cases f with
  | requestError e => simp [extract_comments] at h
  | jsonError e => simp [extract_comments] at h
  | ok d =>
    cases d with
    | notListOrShort => simp [extract_comments] at h
    | missingChildren => simp [extract_comments] at h
    | threadData children =>
      obtain ⟨e, _, _, rfl⟩ := mem_extract_comments_threadData h
      exact truncateBody_length_le _

/-- C2 witness: the truncated record from the 801-character body is in
the output and its body length is within 803. -/
theorem extract_comments_body_le_803_witness :
    ({ author := pstr "alice"
     , body := List.replicate 800 'a' ++ pstr "..."
     , score := 5 } : CommentRecord).body.length ≤ 803 :=
  extract_comments_body_le_803 (pstr "u") (.ok (.threadData [e801])) 10 _
    (by decide)

/-- C3 counterexample: an entry with no author field produces a record
whose author is the capitalized sentinel `"Unknown"`, which differs from
the sentinel `"unknown"` stated by the claim. -/
theorem extract_comments_sentinel_capitalized :
    extract_comments (pstr "u") (.ok (.threadData [entry_no_author])) 10 =
      [PyItem.comment
        { author := pstr "Unknown"
        , body := List.replicate 40 'b'
        , score := 0 }] ∧
    pstr "Unknown" ≠ pstr "unknown" := by
  constructor
  · decide
  · decide

/-- C3 (amended): every returned record comes from some entry, and when
that entry lacks an author field the record's author is the sentinel
`"Unknown"` (capitalized, not `"unknown"`); when it lacks a score field
the record's score is 0. -/
theorem extract_comments_default_author_score (url : PyStr)
    (children : List CommentEntry) (maxC : Int) (r : CommentRecord)
    (h : PyItem.comment r ∈
      extract_comments url (.ok (.threadData children)) maxC) :
    ∃ e ∈ children, r = mkRecord e ∧
      (e.author = none → r.author = pstr "Unknown") ∧
      (e.score = none → r.score = 0) := by
  obtain ⟨e, he, _, rfl⟩ := mem_extract_comments_threadData h
  refine ⟨e, he, rfl, ?_, ?_⟩
  · intro ha
    simp [mkRecord, ha]
  · intro hs
    simp [mkRecord, hs]

/-- C3 witness: the record produced from the author-less, score-less
entry indeed carries author `"Unknown"` and score 0. -/
theorem extract_comments_default_author_score_witness :
    ∃ e ∈ [entry_no_author],
      ({ author := pstr "Unknown"
       , body := List.replicate 40 'b'
       , score := 0 } : CommentRecord) = mkRecord e ∧
      (e.author = none →
        ({ author := pstr "Unknown"
         , body := List.replicate 40 'b'
         , score := 0 } : CommentRecord).author = pstr "Unknown") ∧
      (e.score = none →
        ({ author := pstr "Unknown"
         , body := List.replicate 40 'b'
         , score := 0 } : CommentRecord).score = 0) :=
  extract_comments_default_author_score (pstr "u") [entry_no_author] 10 _
    (by decide)

/-- C6 (confirmed): for every fetch outcome and every positive
`max_comments`, the returned list holds at most `max_comments` comment
records (error outcomes hold none). -/
theorem extract_comments_at_most_max (url : PyStr) (f : FetchOutcome)
    (maxC : Int) (h : 1 ≤ maxC) :
    ((successRecords (extract_comments url f maxC)).length : Int) ≤ maxC := by
  cases f with
  | requestError e => simp [extract_comments, successRecords]; omega
  | jsonError e => simp [extract_comments, successRecords]; omega
  | ok d =>
    cases d with
    | notListOrShort => simp [extract_comments, successRecords]; omega
    | missingChildren => simp [extract_comments, successRecords]; omega
    | threadData children =>
      rw [extract_comments, successRecords_map_comment]
      exact extractLoop_length_le (by simpa using h)

/-- C6 witness: with `max_comments = 1` and one valid entry, at most one
record is returned. -/
theorem extract_comments_at_most_max_witness :
    ((successRecords (extract_comments (pstr "u")
      (.ok (.threadData [entry_no_author])) 1)).length : Int) ≤ 1 :=
  extract_comments_at_most_max (pstr "u")
    (.ok (.threadData [entry_no_author])) 1 (by decide)

/-- C7 (confirmed): no returned record's body equals `"[deleted]"` or
`"[removed]"`, and every returned body is strictly longer than the
30-character minimum (so no body shorter than the minimum appears). -/
theorem extract_comments_no_deleted_removed_short (url : PyStr)
    (f : FetchOutcome) (maxC : Int) (r : CommentRecord)
    (h : PyItem.comment r ∈ extract_comments url f maxC) :
    r.body ≠ pstr "[deleted]" ∧ r.body ≠ pstr "[removed]" ∧
      30 < r.body.length := by
  cases f with
  | requestError e => simp [extract_comments] at h
  | jsonError e => simp [extract_comments] at h
  | ok d =>
    cases d with
    | notListOrShort => simp [extract_comments] at h
    | missingChildren => simp [extract_comments] at h
    | threadData children =>
      obtain ⟨e, _, hv, rfl⟩ := mem_extract_comments_threadData h
      obtain ⟨-, -, hlen⟩ := isValidBody_spec hv
      have hgt : 30 < (mkRecord e).body.length := truncateBody_length_gt hlen
      refine ⟨?_, ?_, hgt⟩
      · intro heq
        rw [heq] at hgt
        exact absurd hgt (by decide)
      · intro heq
        rw [heq] at hgt
        exact absurd hgt (by decide)

/-- C7 witness: the record from the 40-character body is returned and
its body is neither sentinel and longer than 30 characters. -/
theorem extract_comments_no_deleted_removed_short_witness :
    ({ author := pstr "Unknown"
     , body := List.replicate 40 'b'
     , score := 0 } : CommentRecord).body ≠ pstr "[deleted]" ∧
    ({ author := pstr "Unknown"
     , body := List.replicate 40 'b'
     , score := 0 } : CommentRecord).body ≠ pstr "[removed]" ∧
    30 < ({ author := pstr "Unknown"
          , body := List.replicate 40 'b'
          , score := 0 } : CommentRecord).body.length :=
  extract_comments_no_deleted_removed_short (pstr "u")
    (.ok (.threadData [entry_no_author])) 10 _ (by decide)

/-- C8 (confirmed): every returned record comes from some entry whose
defaulted body, when strictly longer than 800 characters, appears in the
record cut to its first 800 characters with the `...` marker appended,
and, when exactly 800 characters, appears unmodified. -/
theorem extract_comments_truncation_boundary (url : PyStr)
    (children : List CommentEntry) (maxC : Int) (r : CommentRecord)
    (h : PyItem.comment r ∈
      extract_comments url (.ok (.threadData children)) maxC) :
    ∃ e ∈ children,
      (800 < (e.body.getD []).length →
        r.body = (e.body.getD []).take 800 ++ pstr "...") ∧
      ((e.body.getD []).length = 800 → r.body = e.body.getD []) := by
  obtain ⟨e, he, _, rfl⟩ := mem_extract_comments_threadData h
  refine ⟨e, he, ?_, ?_⟩
  · intro hgt
    simp [mkRecord, truncateBody, hgt]
  · intro heq
    simp [mkRecord, truncateBody, heq]

/-- C8 witness: the 801-character body is returned truncated to its
first 800 characters plus the marker. -/
theorem extract_comments_truncation_boundary_witness :
    ∃ e ∈ [e801],
      (800 < (e.body.getD []).length →
        ({ author := pstr "alice"
         , body := List.replicate 800 'a' ++ pstr "..."
         , score := 5 } : CommentRecord).body =
          (e.body.getD []).take 800 ++ pstr "...") ∧
      ((e.body.getD []).length = 800 →
        ({ author := pstr "alice"
         , body := List.replicate 800 'a' ++ pstr "..."
         , score := 5 } : CommentRecord).body = e.body.getD []) :=
  extract_comments_truncation_boundary (pstr "u") [e801] 10 _ (by decide)

/-- C9 (confirmed): on a request-layer failure, `extract_comments`
returns exactly the one-element diagnostic list (never raises: the
model is total), which is not the empty success list, and whose message
starts with `"Network error"`, identifying a transport failure. -/
theorem extract_comments_network_error_diagnostic (url emsg : PyStr)
    (maxC : Int) :
    extract_comments url (.requestError emsg) maxC =
      [PyItem.message
        (pstr "Network error accessing " ++ url ++ pstr ": " ++ emsg)] ∧
    extract_comments url (.requestError emsg) maxC ≠ [] ∧
    ∃ rest, pstr "Network error accessing " ++ url ++ pstr ": " ++ emsg =
      pstr "Network error" ++ rest := by
  refine ⟨rfl, by simp [extract_comments],
    ⟨pstr " accessing " ++ url ++ pstr ": " ++ emsg, ?_⟩⟩
  have hsplit : pstr "Network error accessing " =
      pstr "Network error" ++ pstr " accessing " := by decide
  rw [hsplit]
  simp [List.append_assoc]
